import Mathlib

/-!
Verification development for the `financial-health-ai` frontend.

The repository is a small React client around one upload-and-analyze
workflow.  The parts the properties below talk about are embedded as
plain Lean definitions:

* `uploadAndAnalyze` — the analysis client in
  `src/frontend/src/services/api.js`: it builds a multipart form with
  fields `file`, `business_type`, `language`, issues one POST to
  `{API_BASE_URL}/analysis/run`, returns the response body verbatim on
  success and rethrows the axios error on failure.
* `App.jsx` — holds `result` and `loading` state; `handleAnalysis`
  wraps the client call in try/catch/finally (alert on error, loading
  always cleared in `finally`); the "New Scan" button renders only
  when `result` is set and resets `result` to `null`, which remounts
  the `FileUploader` with fresh state.
* `FileUploader.jsx` — holds `file` and `loading` state; the Analyze
  button renders only when a file is chosen and no upload is in
  flight; `handleUpload` returns early when no file is chosen.
* `MetricsGrid` / `MetricCard` (unnamed source file) — the display
  layer for the four metric cards: `value = metrics.key || 0` and the
  per-card health flags.

The network is made explicit: every client invocation is parametrised
by a `NetOutcome` (the HTTP reply or a transport failure), and the
handlers are pure functions from state and outcome to new state plus a
list of observable effects (POST requests, alerts, console output).
JSON numbers are modelled as integers: every numeric value the claims
touch (scores, currency amounts, HTTP statuses) is integral.
-/

/-- JSON values, as delivered by axios after parsing a response body.
Numbers are modelled as integers (see the header note). -/
inductive Json where
  | null
  | bool (b : Bool)
  | num (n : Int)
  | str (s : String)
  | arr (elems : List Json)
  | obj (fields : List (String × Json))
deriving Repr

/-- Property access `j.k` on a parsed JSON value: `none` models the
JS `undefined` produced when the key is absent or the value is not an
object. -/
def Json.get (j : Json) (k : String) : Option Json :=
  match j with
  | .obj fields => fields.lookup k
  | _ => none

/-- The request `uploadAndAnalyze` hands to `axios.post`: method, full
URL, content type and the multipart form fields in append order. -/
structure Request where
  method : String
  url : String
  contentType : String
  fields : List (String × String)
deriving Repr, DecidableEq

/-- An axios response object (the slice the client reads). -/
structure AxiosResponse where
  status : Nat
  data : Json
deriving Repr

/-- An axios rejection value.  `response` is `some` exactly when the
server answered with a non-success HTTP status, and `none` for a
transport-level failure (connection refused, timeout, DNS failure). -/
structure AxiosError where
  response : Option AxiosResponse
  message : String
deriving Repr

/-- What the network did for one POST: either an HTTP reply with a
status and a JSON body, or a transport failure with a message. -/
inductive NetOutcome where
  | reply (status : Nat) (body : Json)
  | netFail (message : String)
deriving Repr

/-- The rejection message axios attaches to a non-2xx reply. -/
def axiosStatusMsg (status : Nat) : String :=
  "Request failed with status code " ++ toString status

/-- Axios `post` with the default `validateStatus`: a 2xx reply
resolves with the response object, any other status rejects with an
error carrying the response, and a transport failure rejects with an
error carrying no response. -/
def axiosPost (outcome : NetOutcome) : Except AxiosError AxiosResponse :=
  match outcome with
  | .reply status body =>
      if 200 ≤ status ∧ status < 300 then
        .ok ⟨status, body⟩
      else
        .error ⟨some ⟨status, body⟩, axiosStatusMsg status⟩
  | .netFail message => .error ⟨none, message⟩

/-- `const API_BASE_URL = process.env.REACT_APP_API_URL || ""`:
the base URL resolved once at module start from the environment
(`none` models an unset variable). -/
def apiBaseUrl (envVar : Option String) : String :=
  match envVar with
  | some v => if v = "" then "" else v
  | none => ""

/-- Observable effects of the client and the UI handlers. -/
inductive Effect where
  | post (req : Request)
  | alert (message : String)
  | consoleError (tag : String)
deriving Repr, DecidableEq

/-- Everything one invocation of the client does: the requests it
issued, its console output, and the value the returned promise
settles with. -/
structure ClientCall where
  requests : List Request
  logs : List Effect
  outcome : Except AxiosError Json
deriving Repr

/-- The single request `uploadAndAnalyze` constructs: a multipart POST
to `/analysis/run` under the module-level base URL, with exactly the
form fields `file`, `business_type` and `language`, in append order. -/
def analysisRequest (baseUrl fileName businessType language : String) : Request :=
  { method := "POST"
    url := baseUrl ++ "/analysis/run"
    contentType := "multipart/form-data"
    fields := [("file", fileName), ("business_type", businessType),
               ("language", language)] }

/-- `uploadAndAnalyze(file, businessType = "Retail", language = "en")`
from `src/frontend/src/services/api.js`, parametrised by the resolved
base URL and the network outcome.  It appends the three form fields,
posts once, and either returns `response.data` verbatim or logs
`console.error("API Error:", error)` and rethrows the same error.
The `netOutcome` parameter sits before the defaulted parameters so
that a call omitting them uses the source defaults. -/
def uploadAndAnalyze (baseUrl fileName : String) (netOutcome : NetOutcome)
    (businessType : String := "Retail") (language : String := "en") :
    ClientCall :=
  let req := analysisRequest baseUrl fileName businessType language
  match axiosPost netOutcome with
  | .ok resp => { requests := [req], logs := [], outcome := .ok resp.data }
  | .error e =>
      { requests := [req]
        logs := [.consoleError "API Error:"]
        outcome := .error e }

/-- `App.jsx` state: `useState` cells `result`, `loading`, `lang`. -/
structure AppState where
  result : Option Json
  loading : Bool
  lang : String
deriving Repr

/-- `FileUploader.jsx` state: `useState` cells `loading`, `file`
(the file is represented by its name). -/
structure UploaderState where
  loading : Bool
  file : Option String
deriving Repr

/-- The combined UI state: the `App` component and its mounted
`FileUploader` child. -/
structure Sys where
  app : AppState
  up : UploaderState
deriving Repr

/-- A freshly mounted `FileUploader`: both `useState` hooks take their
initial values (`loading = false`, `file = null`). -/
def initUploader : UploaderState := { loading := false, file := none }

/-- `handleFileChange`: `setFile(e.target.files[0])` (which is
`undefined` when the user cancels the picker). -/
def handleFileChange (u : UploaderState) (f : Option String) : UploaderState :=
  { u with file := f }

/-- The Analyze button is rendered only under `{file && !loading && ...}`
(`FileUploader.jsx`), so the upload action can be triggered exactly
when a file is chosen and no upload is in flight. -/
def analyzeButtonShown (u : UploaderState) : Bool :=
  u.file.isSome && !u.loading

/-- The "New Scan" button is rendered only under `{result && ...}`
(`App.jsx` header). -/
def newScanShown (a : AppState) : Bool :=
  a.result.isSome

/-- The synchronous opening phase of a submission, given that the
Analyze button was pressed: `handleUpload` returns early if no file is
chosen (`if (!file) return`); otherwise it sets the uploader's
`loading`, and the awaited `onUploadSuccess = handleAnalysis` sets the
app's `loading` and starts `uploadAndAnalyze(file, "Retail", lang)`,
which issues the one POST. -/
def handleUploadStart (baseUrl : String) (s : Sys) : Sys × List Effect :=
  match s.up.file with
  | none => (s, [])
  | some f =>
      ({ app := { s.app with loading := true }
         up := { s.up with loading := true } },
       [.post (analysisRequest baseUrl f "Retail" s.app.lang)])

/-- A user click on the Analyze button: dispatches `handleUpload` when
the button is rendered, and is no event at all otherwise. -/
def clickAnalyze (baseUrl : String) (s : Sys) : Sys × List Effect :=
  if analyzeButtonShown s.up then handleUploadStart baseUrl s else (s, [])

/-- The resolution of `handleAnalysis`'s try/catch/finally once the
awaited client call settles: on success `setResult(data)`, on failure
`alert("Error connecting to backend. See console.")`, and in both
cases `finally { setLoading(false) }`. -/
def handleAnalysisResolve (a : AppState) (res : Except AxiosError Json) :
    AppState × List Effect :=
  match res with
  | .ok data => ({ a with result := some data, loading := false }, [])
  | .error _ =>
      ({ a with loading := false },
       [.alert "Error connecting to backend. See console."])

/-- The resolution phase of a submission that had file `f` in flight:
the client call settles with `netOutcome`; `handleAnalysis` consumes
the settled value (it catches any rejection itself, so the awaited
`onUploadSuccess(file)` never rejects and `handleUpload`'s own catch
branch is dead); `handleUpload`'s `finally` clears the uploader's
`loading`. -/
def submitResolve (baseUrl : String) (s : Sys) (f : String)
    (netOutcome : NetOutcome) : Sys × List Effect :=
  let call := uploadAndAnalyze baseUrl f netOutcome "Retail" s.app.lang
  let stepped := handleAnalysisResolve s.app call.outcome
  ({ app := stepped.1, up := { s.up with loading := false } },
   call.logs ++ stepped.2)

/-- A user click on "New Scan": when the button is rendered
(`result` set) it runs `setResult(null)`; the conditional render in
`App.jsx` then replaces the result view by the upload view, mounting a
fresh `FileUploader` whose hook state is reinitialised.  When the
button is not rendered the click is no event. -/
def clickNewScan (s : Sys) : Sys :=
  if newScanShown s.app then
    { app := { s.app with result := none }, up := initUploader }
  else s

/-- The `metrics` mapping the display layer receives
(`result.financial_summary.metrics`): each recognized key is either
absent or a numeric amount. -/
structure Metrics where
  total_revenue : Option Int
  net_cashflow : Option Int
  total_expenses : Option Int
  avg_transaction : Option Int
deriving Repr, DecidableEq

/-- JS `v || 0` on a numeric-or-`undefined` value: `undefined` and `0`
are falsy and give `0`; any other number is returned unchanged. -/
def jsOrZero (v : Option Int) : Int :=
  match v with
  | none => 0
  | some n => if n = 0 then 0 else n

/-- JS `v > 0` on a numeric-or-`undefined` value: `undefined > 0` is
`false` (NaN comparison); a number compares numerically. -/
def jsGtZero (v : Option Int) : Bool :=
  match v with
  | none => false
  | some n => decide (0 < n)

/-- The props `MetricsGrid` passes to one `MetricCard`: the card shows
`₹{Number(value).toLocaleString()}` (on a number, `value` itself) and
a `HEALTHY` badge when `isPositive`, `STRESS` otherwise. -/
structure MetricCard where
  title : String
  value : Int
  isPositive : Bool
deriving Repr, DecidableEq

/-- `MetricsGrid`: the four cards in source order, with
`value = metrics.key || 0` and the hardwired/`net_cashflow > 0`
health flags, exactly as in the source. -/
def MetricsGrid (m : Metrics) : List MetricCard :=
  [ { title := "Total Revenue", value := jsOrZero m.total_revenue,
      isPositive := true },
    { title := "Net Cashflow", value := jsOrZero m.net_cashflow,
      isPositive := jsGtZero m.net_cashflow },
    { title := "Total Expenses", value := jsOrZero m.total_expenses,
      isPositive := false },
    { title := "Avg Transaction", value := jsOrZero m.avg_transaction,
      isPositive := true } ]

/-- The amount displayed on card `i` of a grid. -/
def cardValue (cards : List MetricCard) (i : Nat) : Option Int :=
  (cards.get? i).map MetricCard.value

/-- The health flag of card `i` of a grid. -/
def cardPositive (cards : List MetricCard) (i : Nat) : Option Bool :=
  (cards.get? i).map MetricCard.isPositive

/-- `credit_readiness.score` of a response body, `none` when the path
is absent. -/
def creditScore (j : Json) : Option Json :=
  (j.get "credit_readiness").bind (fun cr => cr.get "score")

/-- Helper for the spec-side schema: an optional field that, when
present, must be a number. -/
def optNumOk (v : Option Json) : Bool :=
  match v with
  | none => true
  | some (.num _) => true
  | some _ => false

/-- One projection record per the spec's words:
`{ month: label, projected_revenue: number, projected_net_cashflow: number }`. -/
def specIsProjection (p : Json) : Bool :=
  (match p.get "month" with | some (.str _) => true | _ => false) &&
  (match p.get "projected_revenue" with | some (.num _) => true | _ => false) &&
  (match p.get "projected_net_cashflow" with | some (.num _) => true | _ => false)

/-- Follows the spec's words (sections 3 and 6), for comparison with
the code: a well-typed `AnalysisResult` body has
`credit_readiness.score` an integer in 0..100, `credit_readiness.grade`
one of A/B/C/D, `financial_summary.metrics` an object whose recognized
keys are numeric when present, `projections` an array of projection
records, and `ai_report` a string.  The code itself declares no such
check; this definition exists only to state what the spec requires. -/
def specIsAnalysisResult (j : Json) : Bool :=
  (match creditScore j with
   | some (.num n) => decide (0 ≤ n) && decide (n ≤ 100)
   | _ => false) &&
  (match (j.get "credit_readiness").bind (fun cr => cr.get "grade") with
   | some (.str g) => g = "A" || g = "B" || g = "C" || g = "D"
   | _ => false) &&
  (match (j.get "financial_summary").bind (fun fs => fs.get "metrics") with
   | some (.obj fields) =>
       optNumOk ((Json.obj fields).get "total_revenue") &&
       optNumOk ((Json.obj fields).get "net_cashflow") &&
       optNumOk ((Json.obj fields).get "total_expenses") &&
       optNumOk ((Json.obj fields).get "avg_transaction")
   | _ => false) &&
  (match j.get "projections" with
   | some (.arr ps) => ps.all specIsProjection
   | _ => false) &&
  (match j.get "ai_report" with
   | some (.str _) => true
   | _ => false)

/-- C1, counterexample.  The claim says a body in which
`credit_readiness.score` is absent makes parsing fail with a
`SchemaError`.  The client has no parse step: on a 200 reply whose
body is `{"credit_readiness":{"grade":"B"}}` (spec Scenario C) the
call resolves successfully with that body, whose score path is
absent — no failure of any kind is produced. -/
theorem c1_counterexample :
    (uploadAndAnalyze "" "statement.csv"
        (.reply 200 (.obj [("credit_readiness", .obj [("grade", .str "B")])]))).outcome
      = .ok (.obj [("credit_readiness", .obj [("grade", .str "B")])]) ∧
    creditScore (.obj [("credit_readiness", .obj [("grade", .str "B")])]) = none := by
  exact ⟨rfl, rfl⟩

/-- C1, amended.  The client performs no schema validation: on any
2xx reply it resolves with the response body verbatim and never fails
with a schema error; in particular a body missing
`credit_readiness.score` is passed through with the score still
absent — the client never fabricates a score. -/
theorem c1_no_validating_parse (baseUrl fileName businessType language : String)
    (status : Nat) (body : Json) (h : 200 ≤ status ∧ status < 300) :
    (uploadAndAnalyze baseUrl fileName (.reply status body) businessType language).outcome
      = .ok body ∧
    (creditScore body = none →
      ∀ r, (uploadAndAnalyze baseUrl fileName (.reply status body) businessType language).outcome
          = .ok r → creditScore r = none) := by
  have h1 : (uploadAndAnalyze baseUrl fileName (.reply status body)
      businessType language).outcome = .ok body := by
    simp [uploadAndAnalyze, axiosPost, h]
  refine ⟨h1, fun hs r hr => ?_⟩
  rw [h1] at hr
  cases hr
  exact hs

/-- C1, witness for the amended theorem at status 200 and the
Scenario C body. -/
theorem c1_no_validating_parse_witness :
    (uploadAndAnalyze "" "statement.csv"
        (.reply 200 (.obj [("credit_readiness", .obj [("grade", .str "A")])]))).outcome
      = .ok (.obj [("credit_readiness", .obj [("grade", .str "A")])]) :=
  (c1_no_validating_parse "" "statement.csv" "Retail" "en" 200
    (.obj [("credit_readiness", .obj [("grade", .str "A")])]) (by decide)).1

/-- C2.  Every invocation of `uploadAndAnalyze` issues exactly one
POST, to the fixed path `/analysis/run` under the base URL resolved at
module start from the environment, as a multipart submission whose
fields are exactly `file`, `business_type` and `language`; and a call
omitting the optional parameters uses `business_type = "Retail"` and
`language = "en"`. -/
theorem c2_single_post_fixed_shape (envVar : Option String)
    (fileName businessType language : String) (netOutcome : NetOutcome) :
    (uploadAndAnalyze (apiBaseUrl envVar) fileName netOutcome businessType language).requests
      = [{ method := "POST", url := apiBaseUrl envVar ++ "/analysis/run",
           contentType := "multipart/form-data",
           fields := [("file", fileName), ("business_type", businessType),
                      ("language", language)] }] ∧
    (uploadAndAnalyze (apiBaseUrl envVar) fileName netOutcome).requests
      = [{ method := "POST", url := apiBaseUrl envVar ++ "/analysis/run",
           contentType := "multipart/form-data",
           fields := [("file", fileName), ("business_type", "Retail"),
                      ("language", "en")] }] := by
  constructor <;>
    · unfold uploadAndAnalyze
      cases axiosPost netOutcome <;> simp [analysisRequest]

/-- C3, counterexample.  The claim requires every resolved exchange to
carry a schema-validated result.  A 200 reply whose body is JSON
`null` resolves successfully with `null`, which is not a well-typed
`AnalysisResult` under the spec's own shape — the resolved value is
unvalidated and no schema failure kind exists in the client. -/
theorem c3_counterexample :
    (uploadAndAnalyze "" "statement.csv" (.reply 200 .null)).outcome = .ok .null ∧
    specIsAnalysisResult .null = false := by
  exact ⟨rfl, rfl⟩

/-- C3, amended.  The client never silently swallows a failure: a 2xx
reply resolves with the raw body, a non-2xx reply rejects with an
error that carries the response (status and body), and a transport
failure rejects with an error that carries no response — so transport
failure and non-success HTTP status are distinguishable failure kinds.
The success path returns the body unvalidated, so schema-validation
failure is not among the surfaced kinds. -/
theorem c3_failures_surfaced (baseUrl fileName businessType language : String)
    (status : Nat) (body : Json) (message : String) :
    ((200 ≤ status ∧ status < 300) →
      (uploadAndAnalyze baseUrl fileName (.reply status body) businessType language).outcome
        = .ok body) ∧
    (¬(200 ≤ status ∧ status < 300) →
      (uploadAndAnalyze baseUrl fileName (.reply status body) businessType language).outcome
        = .error ⟨some ⟨status, body⟩, axiosStatusMsg status⟩) ∧
    (uploadAndAnalyze baseUrl fileName (.netFail message) businessType language).outcome
      = .error ⟨none, message⟩ := by
  refine ⟨fun h => ?_, fun h => ?_, ?_⟩ <;>
    simp [uploadAndAnalyze, axiosPost, *]

/-- C3, witness for the amended theorem: an HTTP 500 reply and a
transport failure each reject with the distinguishing error shape. -/
theorem c3_failures_surfaced_witness :
    (uploadAndAnalyze "" "statement.csv" (.reply 500 .null)).outcome
      = .error ⟨some ⟨500, .null⟩, axiosStatusMsg 500⟩ ∧
    (uploadAndAnalyze "" "statement.csv" (.netFail "Network Error")).outcome
      = .error ⟨none, "Network Error"⟩ :=
  ⟨(c3_failures_surfaced "" "statement.csv" "Retail" "en" 500 .null
      "Network Error").2.1 (by decide),
   (c3_failures_surfaced "" "statement.csv" "Retail" "en" 500 .null
      "Network Error").2.2⟩

/-- C4.  Once the client call resolves, the workflow is in exactly one
of Succeeded (a result stored, no error alert) or Failed (no result
stored, the error alert raised), and both loading flags are cleared by
the `finally` blocks regardless of the outcome — the workflow is never
left in Submitting. -/
theorem c4_resolution_settles (baseUrl : String) (s : Sys) (f : String)
    (netOutcome : NetOutcome) (h : s.app.result = none) :
    (submitResolve baseUrl s f netOutcome).1.app.loading = false ∧
    (submitResolve baseUrl s f netOutcome).1.up.loading = false ∧
    (((∃ d, (submitResolve baseUrl s f netOutcome).1.app.result = some d) ∧
        Effect.alert "Error connecting to backend. See console."
          ∉ (submitResolve baseUrl s f netOutcome).2) ∨
      ((submitResolve baseUrl s f netOutcome).1.app.result = none ∧
        Effect.alert "Error connecting to backend. See console."
          ∈ (submitResolve baseUrl s f netOutcome).2)) := by
  refine ⟨?_, ?_, ?_⟩ <;>
    · unfold submitResolve uploadAndAnalyze
      cases hx : axiosPost netOutcome <;>
        simp [handleAnalysisResolve, h]

/-- C4, witness at a concrete in-flight state and a 200 reply. -/
theorem c4_resolution_settles_witness :
    (submitResolve "" ⟨⟨none, true, "en"⟩, ⟨true, some "statement.csv"⟩⟩
        "statement.csv" (.reply 200 (.obj []))).1.app.loading = false ∧
    (submitResolve "" ⟨⟨none, true, "en"⟩, ⟨true, some "statement.csv"⟩⟩
        "statement.csv" (.reply 200 (.obj []))).1.up.loading = false ∧
    (((∃ d, (submitResolve "" ⟨⟨none, true, "en"⟩, ⟨true, some "statement.csv"⟩⟩
          "statement.csv" (.reply 200 (.obj []))).1.app.result = some d) ∧
        Effect.alert "Error connecting to backend. See console."
          ∉ (submitResolve "" ⟨⟨none, true, "en"⟩, ⟨true, some "statement.csv"⟩⟩
              "statement.csv" (.reply 200 (.obj []))).2) ∨
      ((submitResolve "" ⟨⟨none, true, "en"⟩, ⟨true, some "statement.csv"⟩⟩
          "statement.csv" (.reply 200 (.obj []))).1.app.result = none ∧
        Effect.alert "Error connecting to backend. See console."
          ∈ (submitResolve "" ⟨⟨none, true, "en"⟩, ⟨true, some "statement.csv"⟩⟩
              "statement.csv" (.reply 200 (.obj []))).2)) :=
  c4_resolution_settles "" ⟨⟨none, true, "en"⟩, ⟨true, some "statement.csv"⟩⟩
    "statement.csv" (.reply 200 (.obj [])) rfl

/-- C5.  On every client failure the workflow ends in its Failed
configuration: the user-facing error description is raised via the
alert, no result is stored, both loading flags are cleared, and the
previously selected file is untouched — so whenever a file was
selected, the Analyze button is rendered again and the same file can
be resubmitted without being re-chosen. -/
theorem c5_failure_keeps_file (baseUrl : String) (s : Sys) (f : String)
    (netOutcome : NetOutcome) (e : AxiosError)
    (h : axiosPost netOutcome = .error e) :
    Effect.alert "Error connecting to backend. See console."
      ∈ (submitResolve baseUrl s f netOutcome).2 ∧
    (submitResolve baseUrl s f netOutcome).1.up.file = s.up.file ∧
    (submitResolve baseUrl s f netOutcome).1.app.result = s.app.result ∧
    (submitResolve baseUrl s f netOutcome).1.app.loading = false ∧
    (submitResolve baseUrl s f netOutcome).1.up.loading = false ∧
    (s.up.file.isSome = true →
      analyzeButtonShown (submitResolve baseUrl s f netOutcome).1.up = true) := by
  refine ⟨?_, ?_, ?_, ?_, ?_, fun hf => ?_⟩ <;>
    simp [submitResolve, uploadAndAnalyze, h, handleAnalysisResolve,
      analyzeButtonShown, *]

/-- C5, witness at a transport failure with a selected file. -/
theorem c5_failure_keeps_file_witness :
    Effect.alert "Error connecting to backend. See console."
      ∈ (submitResolve "" ⟨⟨none, true, "en"⟩, ⟨true, some "statement.csv"⟩⟩
          "statement.csv" (.netFail "Network Error")).2 ∧
    (submitResolve "" ⟨⟨none, true, "en"⟩, ⟨true, some "statement.csv"⟩⟩
        "statement.csv" (.netFail "Network Error")).1.up.file
      = (Sys.mk ⟨none, true, "en"⟩ ⟨true, some "statement.csv"⟩).up.file ∧
    (submitResolve "" ⟨⟨none, true, "en"⟩, ⟨true, some "statement.csv"⟩⟩
        "statement.csv" (.netFail "Network Error")).1.app.result
      = (Sys.mk ⟨none, true, "en"⟩ ⟨true, some "statement.csv"⟩).app.result ∧
    (submitResolve "" ⟨⟨none, true, "en"⟩, ⟨true, some "statement.csv"⟩⟩
        "statement.csv" (.netFail "Network Error")).1.app.loading = false ∧
    (submitResolve "" ⟨⟨none, true, "en"⟩, ⟨true, some "statement.csv"⟩⟩
        "statement.csv" (.netFail "Network Error")).1.up.loading = false ∧
    ((Sys.mk ⟨none, true, "en"⟩ ⟨true, some "statement.csv"⟩).up.file.isSome = true →
      analyzeButtonShown (submitResolve ""
        ⟨⟨none, true, "en"⟩, ⟨true, some "statement.csv"⟩⟩
        "statement.csv" (.netFail "Network Error")).1.up = true) :=
  c5_failure_keeps_file "" ⟨⟨none, true, "en"⟩, ⟨true, some "statement.csv"⟩⟩
    "statement.csv" (.netFail "Network Error") ⟨none, "Network Error"⟩ rfl

/-- C6, counterexample.  The claim says the reset action from any
Failed state yields Idle with no file selected.  In the code a Failed
state has `result = null`, so the "New Scan" control is not rendered
at all; clicking where it would be changes nothing, and the
previously selected file remains selected. -/
theorem c6_counterexample :
    newScanShown (AppState.mk none false "en") = false ∧
    clickNewScan ⟨⟨none, false, "en"⟩, ⟨false, some "statement.csv"⟩⟩
      = ⟨⟨none, false, "en"⟩, ⟨false, some "statement.csv"⟩⟩ ∧
    (Sys.mk ⟨none, false, "en"⟩ ⟨false, some "statement.csv"⟩).up.file
      = some "statement.csv" := by
  exact ⟨rfl, rfl, rfl⟩

/-- C6, amended.  From any Succeeded state (a stored result), the
"New Scan" action yields Idle: the result is discarded and the
remounted uploader holds no file and no pending submission.  From a
Failed state the "New Scan" control is not rendered (`result` is
already `null`) and the click changes nothing, so the selected file is
retained there. -/
theorem c6_reset_from_succeeded (s : Sys) (d : Json)
    (h : s.app.result = some d) :
    (clickNewScan s).app.result = none ∧
    (clickNewScan s).up.file = none ∧
    (clickNewScan s).up.loading = false ∧
    (∀ t : Sys, t.app.result = none → clickNewScan t = t) := by
  refine ⟨?_, ?_, ?_, fun t ht => ?_⟩ <;>
    simp [clickNewScan, newScanShown, initUploader, *]

/-- C6, witness: reset from a concrete Succeeded state. -/
theorem c6_reset_from_succeeded_witness :
    (clickNewScan ⟨⟨some (.obj []), false, "en"⟩, ⟨false, none⟩⟩).app.result = none ∧
    (clickNewScan ⟨⟨some (.obj []), false, "en"⟩, ⟨false, none⟩⟩).up.file = none ∧
    (clickNewScan ⟨⟨some (.obj []), false, "en"⟩, ⟨false, none⟩⟩).up.loading = false ∧
    (∀ t : Sys, t.app.result = none → clickNewScan t = t) :=
  c6_reset_from_succeeded ⟨⟨some (.obj []), false, "en"⟩, ⟨false, none⟩⟩
    (.obj []) rfl

/-- C7.  While an upload is in flight the uploader's `loading` is set,
so the Analyze button is not rendered and a re-entrant submit attempt
is no event at all: the state is unchanged and no POST (indeed no
effect) is produced — at most one analysis request is in flight. -/
theorem c7_no_reentrant_submit (baseUrl : String) (s : Sys)
    (h : s.up.loading = true) :
    clickAnalyze baseUrl s = (s, []) ∧
    ∀ req, Effect.post req ∉ (clickAnalyze baseUrl s).2 := by
  have hb : analyzeButtonShown s.up = false := by
    simp [analyzeButtonShown, h]
  constructor
  · simp [clickAnalyze, hb]
  · intro req
    simp [clickAnalyze, hb]

/-- C7, witness: a submit attempt in a concrete Submitting state. -/
theorem c7_no_reentrant_submit_witness :
    clickAnalyze "" ⟨⟨none, true, "en"⟩, ⟨true, some "statement.csv"⟩⟩
      = (⟨⟨none, true, "en"⟩, ⟨true, some "statement.csv"⟩⟩, []) ∧
    ∀ req, Effect.post req
      ∉ (clickAnalyze "" ⟨⟨none, true, "en"⟩, ⟨true, some "statement.csv"⟩⟩).2 :=
  c7_no_reentrant_submit "" ⟨⟨none, true, "en"⟩, ⟨true, some "statement.csv"⟩⟩ rfl

/-- C8.  With no file selected, the upload action is a no-op at the UI
layer: `handleUpload` returns before constructing anything
(`if (!file) return`), the button is not rendered in the first place,
and no POST is issued — a request is never sent without a selected
file. -/
theorem c8_no_file_is_noop (baseUrl : String) (s : Sys)
    (h : s.up.file = none) :
    handleUploadStart baseUrl s = (s, []) ∧
    clickAnalyze baseUrl s = (s, []) ∧
    ∀ req, Effect.post req ∉ (clickAnalyze baseUrl s).2 := by
  have hu : handleUploadStart baseUrl s = (s, []) := by
    simp [handleUploadStart, h]
  have hb : analyzeButtonShown s.up = false := by
    simp [analyzeButtonShown, h]
  refine ⟨hu, ?_, ?_⟩
  · simp [clickAnalyze, hb]
  · intro req
    simp [clickAnalyze, hb]

/-- C8, witness: the upload action with no file chosen. -/
theorem c8_no_file_is_noop_witness :
    handleUploadStart "" ⟨⟨none, false, "en"⟩, ⟨false, none⟩⟩
      = (⟨⟨none, false, "en"⟩, ⟨false, none⟩⟩, []) ∧
    clickAnalyze "" ⟨⟨none, false, "en"⟩, ⟨false, none⟩⟩
      = (⟨⟨none, false, "en"⟩, ⟨false, none⟩⟩, []) ∧
    ∀ req, Effect.post req
      ∉ (clickAnalyze "" ⟨⟨none, false, "en"⟩, ⟨false, none⟩⟩).2 :=
  c8_no_file_is_noop "" ⟨⟨none, false, "en"⟩, ⟨false, none⟩⟩ rfl

/-- C9.  At the display boundary, each recognized metric key that is
absent from the `metrics` mapping is shown as the value zero on its
card, for every mapping the display layer receives. -/
theorem c9_missing_metric_displays_zero (m : Metrics) :
    (m.total_revenue = none → cardValue (MetricsGrid m) 0 = some 0) ∧
    (m.net_cashflow = none → cardValue (MetricsGrid m) 1 = some 0) ∧
    (m.total_expenses = none → cardValue (MetricsGrid m) 2 = some 0) ∧
    (m.avg_transaction = none → cardValue (MetricsGrid m) 3 = some 0) := by
  refine ⟨fun h => ?_, fun h => ?_, fun h => ?_, fun h => ?_⟩ <;>
    simp [MetricsGrid, cardValue, jsOrZero, h]

/-- C9, witness: the empty metrics mapping displays zero on all four
cards. -/
theorem c9_missing_metric_displays_zero_witness :
    cardValue (MetricsGrid ⟨none, none, none, none⟩) 0 = some 0 ∧
    cardValue (MetricsGrid ⟨none, none, none, none⟩) 1 = some 0 ∧
    cardValue (MetricsGrid ⟨none, none, none, none⟩) 2 = some 0 ∧
    cardValue (MetricsGrid ⟨none, none, none, none⟩) 3 = some 0 :=
  ⟨(c9_missing_metric_displays_zero ⟨none, none, none, none⟩).1 rfl,
   (c9_missing_metric_displays_zero ⟨none, none, none, none⟩).2.1 rfl,
   (c9_missing_metric_displays_zero ⟨none, none, none, none⟩).2.2.1 rfl,
   (c9_missing_metric_displays_zero ⟨none, none, none, none⟩).2.2.2 rfl⟩

/-- C10.  The health flag is fixed per card except for net cashflow:
Total Revenue and Avg Transaction are always marked healthy, Total
Expenses always stressed, and Net Cashflow is healthy exactly when
`net_cashflow` is present and strictly positive — a value of zero or a
missing value is marked stressed. -/
theorem c10_health_flags (m : Metrics) :
    cardPositive (MetricsGrid m) 0 = some true ∧
    cardPositive (MetricsGrid m) 2 = some false ∧
    cardPositive (MetricsGrid m) 3 = some true ∧
    (cardPositive (MetricsGrid m) 1 = some true ↔
      ∃ n, m.net_cashflow = some n ∧ 0 < n) := by
  refine ⟨rfl, rfl, rfl, ?_⟩
  cases hm : m.net_cashflow with
  | none => simp [MetricsGrid, cardPositive, jsGtZero, hm]
  | some n => simp [MetricsGrid, cardPositive, jsGtZero, hm]

/-- C10, witness: at the mapping with `net_cashflow = 0` and the
other keys absent, all four flags evaluate as the theorem states and
the zero cashflow card is stressed. -/
theorem c10_health_flags_witness :
    cardPositive (MetricsGrid ⟨none, some 0, none, none⟩) 0 = some true ∧
    cardPositive (MetricsGrid ⟨none, some 0, none, none⟩) 2 = some false ∧
    cardPositive (MetricsGrid ⟨none, some 0, none, none⟩) 3 = some true ∧
    cardPositive (MetricsGrid ⟨none, some 0, none, none⟩) 1 ≠ some true :=
  ⟨(c10_health_flags ⟨none, some 0, none, none⟩).1,
   (c10_health_flags ⟨none, some 0, none, none⟩).2.1,
   (c10_health_flags ⟨none, some 0, none, none⟩).2.2.1,
   fun hc => by
    rcases ((c10_health_flags ⟨none, some 0, none, none⟩).2.2.2).mp hc with
      ⟨n, hn, hpos⟩
    cases hn
    exact lt_irrefl 0 hpos⟩
